import Mathlib

/-!
# RoboCode Jr — command protocol and timed-actuator execution engine

Shallow embedding of the core of the `robocode-jr` repository:

* the ESP32 BLE firmware (`src/unnamed/part_000`, first file:
  `sparky_robot_ble.ino`): command parsing (`executeCommand`, `getValue`),
  the command handlers, the motor/LED/buzzer actuation functions, the
  polling-loop timeout check and the BLE disconnect callback;
* the legacy Bluetooth-Serial firmware (second file in
  `src/unnamed/part_000`): its polling-loop timeout check, which differs
  from the BLE one;
* the host-side compiler and protocol encoder
  (`src/client/src/lib/commandSystem.ts`): `BlockToCommandCompiler`
  (`compileProgram`, `compileBlock`, the per-kind compilers,
  `validateProgram`) and `CommandProtocolEncoder.encodeCommand`.

Device-side integers are C `int`/`long` values modelled as `Int` (all values
reached here are small and nonnegative, so overflow does not occur); the
millisecond clock `millis()` is passed explicitly as a `Nat` parameter.
Host-side JavaScript numbers are modelled as `Rat` (exact arithmetic; every
value a claim mentions is integral, where double rounding cannot differ).
-/

namespace RoboCode

/-! ## Arduino / C helpers -/

/-- C `constrain(amt, low, high)`: `amt < low ? low : (amt > high ? high : amt)`. -/
def constrain (amt low high : Int) : Int :=
  if amt < low then low else if amt > high then high else amt

/-- Arduino `map(x, in_min, in_max, out_min, out_max)` with C integer
division (truncation toward zero, `Int.tdiv`). -/
def arduinoMap (x inMin inMax outMin outMax : Int) : Int :=
  Int.tdiv ((x - inMin) * (outMax - outMin)) (inMax - inMin) + outMin

/-- Accumulate the leading decimal digits, stopping at the first
non-digit character (the digit-consuming part of C `atol`). -/
def atolDigits : List Char → Int → Int
  | c :: rest, acc =>
      if c.isDigit then atolDigits rest (acc * 10 + ((c.toNat - '0'.toNat : Nat) : Int))
      else acc
  | [], acc => acc

/-- Arduino `String::toInt()` (`atol` semantics): skip leading whitespace,
optional sign, then leading digits; a string with no leading digits
parses as `0`. -/
def arduinoToInt (s : String) : Int :=
  let cs := s.data.dropWhile (fun c => c = ' ' ∨ c = '\t' ∨ c = '\n' ∨ c = '\r')
  match cs with
  | '-' :: rest => - atolDigits rest 0
  | '+' :: rest => atolDigits rest 0
  | _ => atolDigits cs 0

/-- Arduino `String::toUpperCase()` / JavaScript `toUpperCase()` on the
ASCII strings used here. -/
def upperString (s : String) : String := ⟨s.data.map Char.toUpper⟩

/-- Arduino `String::substring(from, to)` on character indices
(`from` inclusive, `to` exclusive); all call sites here have `from ≤ to`. -/
def ardSubstring (s : String) (from! to! : Int) : String :=
  ⟨(s.data.drop from!.toNat).take (to! - from!).toNat⟩

/-- The loop of the firmware's `getValue` helper, carrying
`(found, strIndex[0], strIndex[1])` over the characters of `data`.
The C loop runs `i` from `0` to `maxIndex = data.length() - 1` while
`found <= index`; traversing the character list bounds `i` the same way. -/
def getValueLoop (sep : Char) (index maxIndex : Nat) :
    List Char → Nat → Nat × Int × Int → Nat × Int × Int
  | [], _, st => st
  | c :: rest, i, (found, s0, s1) =>
      if found ≤ index then
        if c = sep ∨ i = maxIndex then
          getValueLoop sep index maxIndex rest (i + 1)
            (found + 1, s1 + 1, if i = maxIndex then (i : Int) + 1 else (i : Int))
        else
          getValueLoop sep index maxIndex rest (i + 1) (found, s0, s1)
      else (found, s0, s1)

/-- The firmware's `getValue(data, separator, index)` helper: positional
split on `separator`, returning the empty string when the field is
missing (index out of bounds → `""`, not an error). -/
def getValue (data : String) (separator : Char) (index : Nat) : String :=
  let st := getValueLoop separator index (data.length - 1) data.data 0 (0, 0, -1)
  if st.1 > index then ardSubstring data st.2.1 st.2.2 else ""

/-! ## Device state (BLE firmware globals) -/

/-- The firmware's free-standing mutable globals, as one record: the four
motor PWM channel duties, the LED PWM channel duty, and the robot-state
variables `ledState`, `ledBrightness`, `currentSpeed`, `lastCommand`,
`commandTimeout` (0 = disarmed), `deviceConnected`. -/
structure DeviceState where
  pwmL1 : Int
  pwmL2 : Int
  pwmR1 : Int
  pwmR2 : Int
  pwmLED : Int
  ledState : Bool
  ledBrightness : Int
  currentSpeed : Int
  lastCommand : String
  commandTimeout : Nat
  deviceConnected : Bool
  deriving Repr, DecidableEq

/-- State at boot: all PWM duties zero, LED off, disarmed, disconnected. -/
def initialState : DeviceState :=
  { pwmL1 := 0, pwmL2 := 0, pwmR1 := 0, pwmR2 := 0, pwmLED := 0
    ledState := false, ledBrightness := 0, currentSpeed := 0
    lastCommand := "", commandTimeout := 0, deviceConnected := false }

/-- Hardware readings consumed by the sensor handlers: the ultrasonic
echo pulse width in microseconds (`pulseIn`, 0 on timeout) and the raw
analog light value (0–4095). -/
structure SensorEnv where
  pulseDuration : Nat
  lightRaw : Int
  deriving Repr, DecidableEq

/-! ## Actuation (BLE firmware) -/

/-- Source `stopMotors()`: all four motor channels to zero. -/
def stopMotors (s : DeviceState) : DeviceState :=
  { s with pwmL1 := 0, pwmL2 := 0, pwmR1 := 0, pwmR2 := 0 }

/-- Source `moveForward(speed)`: both forward channels at the scaled duty. -/
def moveForward (s : DeviceState) (speed : Int) : DeviceState :=
  let pwmValue := arduinoMap speed 0 100 0 255
  { s with pwmL1 := pwmValue, pwmL2 := 0, pwmR1 := pwmValue, pwmR2 := 0 }

/-- Source `moveBackward(speed)`: both reverse channels at the scaled duty. -/
def moveBackward (s : DeviceState) (speed : Int) : DeviceState :=
  let pwmValue := arduinoMap speed 0 100 0 255
  { s with pwmL1 := 0, pwmL2 := pwmValue, pwmR1 := 0, pwmR2 := pwmValue }

/-- Source `turnLeft(speed)`: left wheel reverses, right wheel forward. -/
def turnLeft (s : DeviceState) (speed : Int) : DeviceState :=
  let pwmValue := arduinoMap speed 0 100 0 255
  { s with pwmL1 := 0, pwmL2 := pwmValue, pwmR1 := pwmValue, pwmR2 := 0 }

/-- Source `turnRight(speed)`: left wheel forward, right wheel reverses. -/
def turnRight (s : DeviceState) (speed : Int) : DeviceState :=
  let pwmValue := arduinoMap speed 0 100 0 255
  { s with pwmL1 := pwmValue, pwmL2 := 0, pwmR1 := 0, pwmR2 := pwmValue }

/-! ## Command handlers (BLE firmware)

Each handler returns the updated state together with the list of
responses passed to `sendResponse` (in order). -/

/-- Source `handleMoveCommand(params)` — params format `F:50:1000`
(direction:speed:duration). -/
def handleMoveCommand (now : Nat) (s : DeviceState) (params : String) :
    DeviceState × List String :=
  let direction := getValue params ':' 0
  let speed := constrain (arduinoToInt (getValue params ':' 1)) 0 100
  let duration := constrain (arduinoToInt (getValue params ':' 2)) 0 10000
  if direction = "F" then
    let s := moveForward s speed
    ({ s with commandTimeout := now + duration.toNat, currentSpeed := speed },
      ["OK:MOVE:" ++ direction ++ ":" ++ toString speed ++ ":" ++ toString duration])
  else if direction = "B" then
    let s := moveBackward s speed
    ({ s with commandTimeout := now + duration.toNat, currentSpeed := speed },
      ["OK:MOVE:" ++ direction ++ ":" ++ toString speed ++ ":" ++ toString duration])
  else
    (s, ["ERROR:INVALID_DIRECTION:" ++ direction])

/-- Source `handleTurnCommand(params)` — params format `R:90:30`
(direction:angle:speed); duration derived as `(angle / 90.0) * 1000`
truncated to `int` (exact rational arithmetic, then truncation; the
operands are small enough that double rounding cannot differ here). -/
def handleTurnCommand (now : Nat) (s : DeviceState) (params : String) :
    DeviceState × List String :=
  let direction := getValue params ':' 0
  let angle := constrain (arduinoToInt (getValue params ':' 1)) 0 360
  let speed := constrain (arduinoToInt (getValue params ':' 2)) 0 100
  let duration : Int := Rat.floor ((angle : Rat) / 90 * 1000)
  if direction = "L" then
    let s := turnLeft s speed
    ({ s with commandTimeout := now + duration.toNat, currentSpeed := speed },
      ["OK:TURN:" ++ direction ++ ":" ++ toString angle ++ ":" ++ toString speed])
  else if direction = "R" then
    let s := turnRight s speed
    ({ s with commandTimeout := now + duration.toNat, currentSpeed := speed },
      ["OK:TURN:" ++ direction ++ ":" ++ toString angle ++ ":" ++ toString speed])
  else
    (s, ["ERROR:INVALID_DIRECTION:" ++ direction])

/-- Source `handleStopCommand()`: stop all motors, disarm the timeout, zero the
current speed, respond `OK:STOP`. -/
def handleStopCommand (s : DeviceState) : DeviceState × List String :=
  let s := stopMotors s
  ({ s with commandTimeout := 0, currentSpeed := 0 }, ["OK:STOP"])

/-- Source `handleLEDCommand(params)` — params `ON:100:white` or `OFF`. -/
def handleLEDCommand (s : DeviceState) (params : String) :
    DeviceState × List String :=
  let state := getValue params ':' 0
  if state = "ON" then
    let brightness := constrain (arduinoToInt (getValue params ':' 1)) 0 100
    let b := arduinoMap brightness 0 100 0 255
    ({ s with ledBrightness := b, pwmLED := b, ledState := true },
      ["OK:LED:" ++ state])
  else if state = "OFF" then
    ({ s with pwmLED := 0, ledState := false, ledBrightness := 0 },
      ["OK:LED:" ++ state])
  else
    (s, ["ERROR:INVALID_LED_STATE:" ++ state])

/-- Source `handleBeepCommand(params)` — params `1000:500` (frequency:duration).
The tone is played on motor channel `PWM_CHANNEL_L1` and then silenced
(`ledcWriteTone(PWM_CHANNEL_L1, 0)` leaves that channel at duty 0), so the
net state effect is `pwmL1 := 0`. -/
def handleBeepCommand (s : DeviceState) (params : String) :
    DeviceState × List String :=
  let frequency := constrain (arduinoToInt (getValue params ':' 0)) 100 5000
  let duration := constrain (arduinoToInt (getValue params ':' 1)) 50 3000
  ({ s with pwmL1 := 0 },
    ["OK:BEEP:" ++ toString frequency ++ ":" ++ toString duration])

/-- Source `readDistanceSensor()`: echo pulse of 0 (timeout) reads as the max
range 400 cm, otherwise `(duration * 0.034) / 2` cm constrained to 2–400. -/
def readDistanceSensor (env : SensorEnv) : Rat :=
  if env.pulseDuration = 0 then 400
  else
    let distance : Rat := ((env.pulseDuration : Rat) * (34 / 1000)) / 2
    if distance < 2 then 2 else if distance > 400 then 400 else distance

/-- Source `readLightSensor()`: raw 0–4095 analog value mapped to 0–1023. -/
def readLightSensor (env : SensorEnv) : Int :=
  arduinoMap env.lightRaw 0 4095 0 1023

/-- Arduino `String(float)` prints two decimal places; the sensor values
formatted here are nonnegative. -/
def arduinoFloatString (q : Rat) : String :=
  let n : Int := Rat.floor (q * 100 + 1 / 2)
  let whole := Int.tdiv n 100
  let frac := (Int.tmod n 100).toNat
  toString whole ++ "." ++ (if frac < 10 then "0" else "") ++ toString frac

/-- Source `handleSensorCommand(params)` — params `DISTANCE`, `LIGHT` or
`OBSTACLE` (upper-cased first). Sensor reads change no robot state. -/
def handleSensorCommand (env : SensorEnv) (s : DeviceState) (params : String) :
    DeviceState × List String :=
  let sensorType := upperString params
  if sensorType = "DISTANCE" then
    (s, ["SENSOR:DISTANCE:" ++ arduinoFloatString (readDistanceSensor env) ++ ":cm"])
  else if sensorType = "LIGHT" then
    (s, ["SENSOR:LIGHT:" ++ toString (readLightSensor env) ++ ":lux"])
  else if sensorType = "OBSTACLE" then
    let obstacle := readDistanceSensor env < 20
    (s, ["SENSOR:OBSTACLE:" ++ (if obstacle then "1" else "0") ++ ":boolean"])
  else
    (s, ["ERROR:UNKNOWN_SENSOR:" ++ sensorType])

/-- Source `command.indexOf(':')` / `substring` split of `executeCommand`:
`none` when the line has no colon, otherwise the type and the remainder. -/
def splitFirstColon (s : String) : Option (String × String) :=
  match s.data.findIdx? (· = ':') with
  | none => none
  | some i => some (⟨s.data.take i⟩, ⟨s.data.drop (i + 1)⟩)

/-- Source `executeCommand(command)` of the BLE firmware: record `lastCommand`,
reject a colonless line as `ERROR:INVALID_FORMAT`, dispatch on the type
tag (`MOVE`, `TURN`, `STOP`, `LED`, `BEEP`, `SENSOR` — the BLE firmware
has no `WAIT` handler), unknown types answered with
`ERROR:UNKNOWN_COMMAND:<type>`. -/
def executeCommand (env : SensorEnv) (now : Nat) (s : DeviceState)
    (command : String) : DeviceState × List String :=
  let s := { s with lastCommand := command }
  match splitFirstColon command with
  | none => (s, ["ERROR:INVALID_FORMAT"])
  | some (type, params) =>
    if type = "MOVE" then handleMoveCommand now s params
    else if type = "TURN" then handleTurnCommand now s params
    else if type = "STOP" then handleStopCommand s
    else if type = "LED" then handleLEDCommand s params
    else if type = "BEEP" then handleBeepCommand s params
    else if type = "SENSOR" then handleSensorCommand env s params
    else (s, ["ERROR:UNKNOWN_COMMAND:" ++ type])

/-! ## Polling loop and disconnect (both firmwares) -/

/-- The timeout check of the BLE firmware's `loop()`:
`commandTimeout > 0 && millis() > commandTimeout` → stop motors, disarm,
emit `TIMEOUT:MOTOR_STOP`. -/
def loopTick (now : Nat) (s : DeviceState) : DeviceState × List String :=
  if 0 < s.commandTimeout ∧ s.commandTimeout < now then
    ({ stopMotors s with commandTimeout := 0 }, ["TIMEOUT:MOTOR_STOP"])
  else (s, [])

/-- The timeout check of the legacy Bluetooth-Serial firmware's `loop()`:
same stop-and-disarm, but it sends no response. -/
def serialLoopTick (now : Nat) (s : DeviceState) : DeviceState × List String :=
  if 0 < s.commandTimeout ∧ s.commandTimeout < now then
    ({ stopMotors s with commandTimeout := 0 }, [])
  else (s, [])

/-- Source `MyServerCallbacks::onDisconnect`: clear the connected flag, stop all
motors, disarm the timeout (the firmware then restarts advertising, which
touches no modelled state). -/
def onDisconnect (s : DeviceState) : DeviceState :=
  let s := { s with deviceConnected := false }
  let s := stopMotors s
  { s with commandTimeout := 0 }

/-! ## Host-side command system (`commandSystem.ts`)

JavaScript numbers are modelled as `Rat`; `x || default` on a
possibly-undefined number (`undefined` or `0` is falsy) is `jsOr`. -/

/-- The `RobotCommand.type` union
`move | turn | stop | led | beep | wait | sensor`. -/
inductive CmdType where
  | move | turn | stop | led | beep | wait | sensor
  deriving Repr, DecidableEq

/-- The fields ever stored in a compiled command's `parameters` record
(absent keys are `none`). -/
structure CmdParams where
  speed : Option Rat := none
  duration : Option Rat := none
  angle : Option Rat := none
  brightness : Option Rat := none
  frequency : Option Rat := none
  time : Option Rat := none
  color : Option String := none
  sensor : Option String := none
  deriving Repr, DecidableEq

/-- The `RobotCommand` interface (`parameters?`, `duration?`,
`expectedResponse?` are optional). -/
structure RobotCommand where
  type : CmdType
  action : String
  parameters : Option CmdParams := none
  duration : Option Rat := none
  expectedResponse : Option Bool := none
  deriving Repr, DecidableEq

/-- The numeric entries a `Block.parameters` record may carry
(absent keys are `none`). -/
structure BlockParams where
  speed : Option Rat := none
  duration : Option Rat := none
  angle : Option Rat := none
  brightness : Option Rat := none
  frequency : Option Rat := none
  color : Option String := none
  deriving Repr, DecidableEq

/-- The `Block` interface; `parameters?` is optional. -/
structure Block where
  id : String
  type : String := ""
  category : String := ""
  label : String := ""
  icon : String := ""
  parameters : Option BlockParams := none
  deriving Repr, DecidableEq

/-- JavaScript `x || d` where `x` is `block.parameters?.<field>`:
`undefined` and `0` are falsy and select the default. -/
def jsOr (x : Option Rat) (d : Rat) : Rat :=
  match x with
  | none => d
  | some v => if v = 0 then d else v

/-- Source `Math.max(lo, Math.min(hi, x))`. -/
def jsClamp (lo hi x : Rat) : Rat := max lo (min hi x)

/-- JavaScript substring containment `s.includes(pat)`. -/
def jsIncludes (s pat : String) : Bool :=
  (List.range (s.data.length + 1)).any
    (fun i => (s.data.drop i).take pat.data.length == pat.data)

/-- Source `block.id.split('-')[0]`. -/
def blockKind (b : Block) : String := ⟨b.id.data.takeWhile (· ≠ '-')⟩

/-- Source `compileMoveCommand(block)`: direction from the id, defaults
`speed || 50`, `duration || 1000`; only speed is clamped (0–100), the
duration is passed through as given. -/
def compileMoveCommand (block : Block) : RobotCommand :=
  let direction := if jsIncludes block.id "forward" then "forward" else "backward"
  let speed := jsOr (block.parameters.bind (·.speed)) 50
  let duration := jsOr (block.parameters.bind (·.duration)) 1000
  { type := .move, action := direction
    parameters := some { speed := jsClamp 0 100 speed, duration := duration }
    duration := some duration }

/-- Source `compileTurnCommand(block)`: defaults `angle || 90`, `speed || 30`;
duration is `Math.max(500, (angle / 90) * 1000)`; angle and speed are
clamped in the stored parameters. -/
def compileTurnCommand (block : Block) : RobotCommand :=
  let direction := if jsIncludes block.id "left" then "left" else "right"
  let angle := jsOr (block.parameters.bind (·.angle)) 90
  let speed := jsOr (block.parameters.bind (·.speed)) 30
  let duration := max 500 (angle / 90 * 1000)
  { type := .turn, action := direction
    parameters := some { angle := jsClamp 0 360 angle, speed := jsClamp 0 100 speed }
    duration := some duration }

/-- Source `compileLedCommand(block)`: defaults `color || 'white'`,
`brightness || 100`; brightness clamped 0–100. -/
def compileLedCommand (block : Block) : RobotCommand :=
  let state := if jsIncludes block.id "on" then "on" else "off"
  let color := (block.parameters.bind (·.color)).getD "white"
  let brightness := jsOr (block.parameters.bind (·.brightness)) 100
  { type := .led, action := state
    parameters := some { color := some color, brightness := jsClamp 0 100 brightness }
    duration := some 100 }

/-- Source `compileSensorCommand(block)`: sensor kind from the id, defaulting to
`distance`. -/
def compileSensorCommand (block : Block) : RobotCommand :=
  let sensorType :=
    if jsIncludes block.id "distance" then "distance"
    else if jsIncludes block.id "obstacle" then "obstacle"
    else if jsIncludes block.id "light" then "light"
    else "distance"
  { type := .sensor, action := "read"
    parameters := some { sensor := some sensorType }
    duration := some 200, expectedResponse := some true }

/-- Source `compileBlock(block, blockIndex)`: dispatch on `block.id.split('-')[0]`;
the default arm (after a `console.warn` diagnostic) yields the no-op wait
command of duration 100. `blockIndex` is accepted but unused, as in the
source. -/
def compileBlock (block : Block) (blockIndex : Nat) : RobotCommand :=
  let kind := blockKind block
  if kind = "move" then compileMoveCommand block
  else if kind = "turn" then compileTurnCommand block
  else if kind = "stop" then
    { type := .stop, action := "motors", duration := some 100 }
  else if kind = "led" then compileLedCommand block
  else if kind = "beep" then
    { type := .beep, action := "sound"
      parameters := some { frequency := some 1000, duration := some 500 }
      duration := some 500 }
  else if kind = "wait" then
    { type := .wait, action := "delay"
      parameters := some { time := some (jsOr (block.parameters.bind (·.duration)) 1000) }
      duration := some (jsOr (block.parameters.bind (·.duration)) 1000) }
  else if kind = "read" ∨ kind = "check" then compileSensorCommand block
  else
    { type := .wait, action := "noop", duration := some 100 }

/-- Source `blocks.map((block, index) => this.compileBlock(block, index))`,
carrying the running index. -/
def compileProgramAux (blocks : List Block) (index : Nat) : List RobotCommand :=
  match blocks with
  | [] => []
  | b :: rest => compileBlock b index :: compileProgramAux rest (index + 1)

/-- Source `compileProgram(blocks)`. -/
def compileProgram (blocks : List Block) : List RobotCommand :=
  compileProgramAux blocks 0

/-- The `{ valid, errors }` result of `validateProgram`. -/
structure ValidationResult where
  valid : Bool
  errors : List String
  deriving Repr, DecidableEq

/-- Source `validateProgram(commands)`: collects the empty-program error, the
too-long error (> 50) and the battery-drain error (> 20 move commands);
`valid` iff no error was collected. Pure — it mutates nothing. -/
def validateProgram (commands : List RobotCommand) : ValidationResult :=
  let errors : List String := []
  let errors := if commands.length = 0 then errors ++ ["Program is empty"] else errors
  let errors :=
    if commands.length > 50 then errors ++ ["Program too long (max 50 commands)"]
    else errors
  let moveCommands := commands.filter (fun cmd => cmd.type = CmdType.move)
  let errors :=
    if moveCommands.length > 20 then
      errors ++ ["Too many movement commands - may drain battery quickly"]
    else errors
  { valid := errors.length == 0, errors := errors }

/-! ## Protocol encoder (`CommandProtocolEncoder`) -/

/-- A JavaScript number interpolated into a template literal; every value
the encoder interpolates in a claim is integral. -/
def numToString (q : Rat) : String :=
  if q.den = 1 then toString q.num else toString q

/-- Source `encodeMoveCommand`: note the falsy-`||` defaults applied again at
encode time. -/
def encodeMoveCommand (command : RobotCommand) : String :=
  let speed := jsOr (command.parameters.bind (·.speed)) 50
  let duration := jsOr (command.parameters.bind (·.duration)) 1000
  let direction := if command.action = "forward" then "F" else "B"
  "MOVE:" ++ direction ++ ":" ++ numToString speed ++ ":" ++ numToString duration

/-- Source `encodeTurnCommand`. -/
def encodeTurnCommand (command : RobotCommand) : String :=
  let angle := jsOr (command.parameters.bind (·.angle)) 90
  let speed := jsOr (command.parameters.bind (·.speed)) 30
  let direction := if command.action = "left" then "L" else "R"
  "TURN:" ++ direction ++ ":" ++ numToString angle ++ ":" ++ numToString speed

/-- Source `encodeLedCommand`: `LED:OFF`, or `LED:ON:<brightness>:<color>`. -/
def encodeLedCommand (command : RobotCommand) : String :=
  let brightness := jsOr (command.parameters.bind (·.brightness)) 100
  let color := (command.parameters.bind (·.color)).getD "white"
  if command.action = "off" then "LED:OFF"
  else "LED:ON:" ++ numToString brightness ++ ":" ++ color

/-- Source `encodeBeepCommand`. -/
def encodeBeepCommand (command : RobotCommand) : String :=
  let frequency := jsOr (command.parameters.bind (·.frequency)) 1000
  let duration := jsOr (command.parameters.bind (·.duration)) 500
  "BEEP:" ++ numToString frequency ++ ":" ++ numToString duration

/-- Source `encodeSensorCommand`. -/
def encodeSensorCommand (command : RobotCommand) : String :=
  let sensor := upperString ((command.parameters.bind (·.sensor)).getD "distance")
  "SENSOR:" ++ sensor

/-- Source `WAIT:${command.duration}` — an absent duration interpolates as the
JavaScript string `undefined`. -/
def encodeWaitCommand (command : RobotCommand) : String :=
  "WAIT:" ++ (match command.duration with
              | some d => numToString d
              | none => "undefined")

/-- Source `encodeCommand(command)`: one wire line per command; `stop` encodes as
the bare line `STOP` (no colon). -/
def encodeCommand (command : RobotCommand) : String :=
  match command.type with
  | .move => encodeMoveCommand command
  | .turn => encodeTurnCommand command
  | .stop => "STOP"
  | .led => encodeLedCommand command
  | .beep => encodeBeepCommand command
  | .wait => encodeWaitCommand command
  | .sensor => encodeSensorCommand command

/-! ## Characterization of the firmware's rejected lines

The predicate mirrors, branch for branch, the tests `executeCommand` and
its handlers perform before any state change: it returns the error
response the BLE firmware sends for a malformed line (no colon), an
unknown type, an unknown direction, an unknown LED state or an unknown
sensor token, and `none` for every line the firmware accepts. -/

/-- Error response of the BLE firmware for a rejected line, `none` when
the line is accepted. -/
def badLineResponse (command : String) : Option String :=
  match splitFirstColon command with
  | none => some "ERROR:INVALID_FORMAT"
  | some (type, params) =>
    if type = "MOVE" then
      if getValue params ':' 0 = "F" then none
      else if getValue params ':' 0 = "B" then none
      else some ("ERROR:INVALID_DIRECTION:" ++ getValue params ':' 0)
    else if type = "TURN" then
      if getValue params ':' 0 = "L" then none
      else if getValue params ':' 0 = "R" then none
      else some ("ERROR:INVALID_DIRECTION:" ++ getValue params ':' 0)
    else if type = "STOP" then none
    else if type = "LED" then
      if getValue params ':' 0 = "ON" then none
      else if getValue params ':' 0 = "OFF" then none
      else some ("ERROR:INVALID_LED_STATE:" ++ getValue params ':' 0)
    else if type = "BEEP" then none
    else if type = "SENSOR" then
      if upperString params = "DISTANCE" then none
      else if upperString params = "LIGHT" then none
      else if upperString params = "OBSTACLE" then none
      else some ("ERROR:UNKNOWN_SENSOR:" ++ upperString params)
    else some ("ERROR:UNKNOWN_COMMAND:" ++ type)

/-! ## Concrete fixtures used by individual claims -/

/-- A sensor environment with a timed-out echo and zero light. -/
def env0 : SensorEnv := { pulseDuration := 0, lightRaw := 0 }

/-- The spec scenario block: a forward move block with speed 150 and
duration 20000. -/
def c4Block : Block :=
  { id := "move-forward"
    parameters := some { speed := some 150, duration := some 20000 } }

/-- An executor state that is `Actuating`: motors driven, deadline armed
at 50 ms. -/
def armedState : DeviceState :=
  { initialState with
      pwmL1 := 255, pwmR1 := 255, currentSpeed := 100
      commandTimeout := 50, deviceConnected := true }

/-- A block of a kind the compiler does not recognize. -/
def unknownBlock : Block := { id := "frobnicate" }

/-- A program of 21 forward-move blocks. -/
def moveBlocks21 : List Block :=
  List.replicate 21 { id := "move-forward" }

/-- A block whose numeric parameters are all explicitly zero. -/
def zeroParamBlock : Block :=
  { id := "move-forward"
    parameters := some { speed := some 0, duration := some 0
                         angle := some 0, brightness := some 0 } }

/-- A beep block carrying (ignored) frequency and duration parameters. -/
def beepBlock : Block :=
  { id := "beep"
    parameters := some { frequency := some 2345, duration := some 42 } }

/-! ## Helper lemmas -/

/-- Length of the indexed compile map equals the block count. -/
theorem compileProgramAux_length (blocks : List Block) :
    ∀ k, (compileProgramAux blocks k).length = blocks.length := by
  induction blocks with
  | nil => intro k; rfl
  | cons b rest ih =>
    intro k
    simpa [compileProgramAux] using ih (k + 1)

/-- Element `j` of the indexed compile map is the compile of block `j`
at index `k + j`. -/
theorem compileProgramAux_get? (blocks : List Block) :
    ∀ k j, (compileProgramAux blocks k).get? j =
      (blocks.get? j).map (fun b => compileBlock b (k + j)) := by
  induction blocks with
  | nil => intro k j; rfl
  | cons b rest ih =>
    intro k j
    cases j with
    | zero => rfl
    | succ j =>
      have h := ih (k + 1) j
      have e : k + 1 + j = k + (j + 1) := by omega
      rw [e] at h
      simpa [compileProgramAux] using h

/-- Bounds of `Math.max(lo, Math.min(hi, x))` when `lo ≤ hi`. -/
theorem jsClamp_bounds (lo hi x : Rat) (h : lo ≤ hi) :
    lo ≤ jsClamp lo hi x ∧ jsClamp lo hi x ≤ hi := by
  unfold jsClamp
  exact ⟨le_max_left _ _, max_le h (min_le_left _ _)⟩

/-! ## Claim theorems -/

/-- C1: on every disconnect event, from any executor state (Idle or
Actuating, any armed deadline), the device transitions to Idle: all four
motor PWM channels are zero and the armed timeout deadline is cleared, so
a disconnection never leaves actuators energized. -/
theorem disconnect_always_safe_stop (s : DeviceState) :
    (onDisconnect s).pwmL1 = 0 ∧ (onDisconnect s).pwmL2 = 0 ∧
    (onDisconnect s).pwmR1 = 0 ∧ (onDisconnect s).pwmR2 = 0 ∧
    (onDisconnect s).commandTimeout = 0 ∧
    (onDisconnect s).deviceConnected = false := by
  simp [onDisconnect, stopMotors]

/-- C2: in every executor state, processing a Stop command zeroes all
four motor PWM channels, clears the timeout deadline, sets the current
speed to 0 and responds `OK:STOP`; a second Stop leaves the state
unchanged and emits the same response (idempotence). -/
theorem stop_command_idle_and_idempotent (s : DeviceState) :
    handleStopCommand s =
      ({ s with pwmL1 := 0, pwmL2 := 0, pwmR1 := 0, pwmR2 := 0
                commandTimeout := 0, currentSpeed := 0 }, ["OK:STOP"]) ∧
    handleStopCommand (handleStopCommand s).1 = handleStopCommand s := by
  exact ⟨rfl, rfl⟩

/-- C3: the claimed encode/decode round trip breaks on the Stop command.
The host encoder emits the bare line `STOP` for a compiled stop block, but
the firmware's `executeCommand` rejects every line without a colon, so the
device answers `ERROR:INVALID_FORMAT` instead of echoing `OK:STOP` —
contradicting the firmware's own protocol documentation (`STOP` → stop all
motors immediately, response `OK:STOP`). -/
theorem stop_line_rejected_by_firmware :
    encodeCommand (compileBlock { id := "stop" } 0) = "STOP" ∧
    (executeCommand env0 0 initialState "STOP").2 = ["ERROR:INVALID_FORMAT"] ∧
    (executeCommand env0 0 initialState "STOP").2 ≠ ["OK:STOP"] := by
  refine ⟨rfl, rfl, ?_⟩
  decide

/-- C4 counterexample: compiling a move block with speed 150 and duration
20000 yields duration 20000, not 10000 — the compiler does not clamp the
move duration — and the encoded line is `MOVE:F:100:20000`, not
`MOVE:F:100:10000`. -/
theorem move_duration_not_clamped_at_compile :
    (compileBlock c4Block 0).parameters.bind CmdParams.duration = some 20000 ∧
    some (20000 : Rat) ≠ some (10000 : Rat) ∧
    encodeCommand (compileBlock c4Block 0) = "MOVE:F:100:20000" ∧
    "MOVE:F:100:20000" ≠ "MOVE:F:100:10000" := by
  refine ⟨rfl, ?_, rfl, ?_⟩ <;> decide

/-- C4 amended: the compiler clamps speed (0–100), angle (0–360) and
brightness (0–100) at construction, but passes the move duration through
unclamped; the scenario block compiles to speed 100 with duration 20000
and encodes as `MOVE:F:100:20000`, and only the device's
`handleMoveCommand` clamps the duration to 10000 (echoing
`OK:MOVE:F:100:10000`). -/
theorem numeric_fields_clamped_except_duration :
    (∀ b : Block, ∃ v, (compileMoveCommand b).parameters.bind CmdParams.speed
        = some v ∧ 0 ≤ v ∧ v ≤ 100) ∧
    (∀ b : Block, ∃ v, (compileTurnCommand b).parameters.bind CmdParams.angle
        = some v ∧ 0 ≤ v ∧ v ≤ 360) ∧
    (∀ b : Block, ∃ v, (compileTurnCommand b).parameters.bind CmdParams.speed
        = some v ∧ 0 ≤ v ∧ v ≤ 100) ∧
    (∀ b : Block, ∃ v, (compileLedCommand b).parameters.bind CmdParams.brightness
        = some v ∧ 0 ≤ v ∧ v ≤ 100) ∧
    (compileBlock c4Block 0).parameters.bind CmdParams.speed = some 100 ∧
    (compileBlock c4Block 0).parameters.bind CmdParams.duration = some 20000 ∧
    encodeCommand (compileBlock c4Block 0) = "MOVE:F:100:20000" ∧
    (handleMoveCommand 0 initialState "F:100:20000").2 = ["OK:MOVE:F:100:10000"] := by
  refine ⟨?_, ?_, ?_, ?_, rfl, rfl, rfl, rfl⟩ <;>
    intro b <;>
    refine ⟨_, rfl, jsClamp_bounds _ _ _ (by norm_num)⟩

/-- C5 counterexample: in the legacy Bluetooth-Serial firmware, a polling
tick at time 100 with the deadline armed at 50 zeroes the motors and
clears the deadline but emits no response at all — in particular not
`TIMEOUT:MOTOR_STOP`. -/
theorem serial_timeout_tick_emits_nothing :
    0 < armedState.commandTimeout ∧ armedState.commandTimeout < 100 ∧
    (serialLoopTick 100 armedState).1.pwmL1 = 0 ∧
    (serialLoopTick 100 armedState).1.commandTimeout = 0 ∧
    (serialLoopTick 100 armedState).2 = [] ∧
    "TIMEOUT:MOTOR_STOP" ∉ (serialLoopTick 100 armedState).2 := by
  refine ⟨by decide, by decide, rfl, rfl, rfl, by decide⟩

/-- C5 amended: once the armed deadline has elapsed, the next polling tick
forces all four motor channels to zero and clears the deadline in both
firmwares; the BLE firmware additionally emits the unsolicited response
`TIMEOUT:MOTOR_STOP`, while the Bluetooth-Serial firmware emits nothing. -/
theorem timeout_tick_stops_motors (now : Nat) (s : DeviceState)
    (harmed : 0 < s.commandTimeout) (helapsed : s.commandTimeout < now) :
    loopTick now s =
      ({ stopMotors s with commandTimeout := 0 }, ["TIMEOUT:MOTOR_STOP"]) ∧
    serialLoopTick now s =
      ({ stopMotors s with commandTimeout := 0 }, []) := by
  constructor <;> simp [loopTick, serialLoopTick, harmed, helapsed]

/-- C5 amended, witness at the concrete armed state and tick time 100. -/
theorem timeout_tick_stops_motors_witness :
    loopTick 100 armedState =
      ({ stopMotors armedState with commandTimeout := 0 }, ["TIMEOUT:MOTOR_STOP"]) ∧
    serialLoopTick 100 armedState =
      ({ stopMotors armedState with commandTimeout := 0 }, []) :=
  timeout_tick_stops_motors 100 armedState (by decide) (by decide)

/-- Move handler with an unknown direction: error response, state kept. -/
theorem handleMove_invalid_direction (now : Nat) (s : DeviceState) (ps : String)
    (h1 : getValue ps ':' 0 ≠ "F") (h2 : getValue ps ':' 0 ≠ "B") :
    handleMoveCommand now s ps = (s, ["ERROR:INVALID_DIRECTION:" ++ getValue ps ':' 0]) := by
  simp [handleMoveCommand, h1, h2]

/-- Turn handler with an unknown direction: error response, state kept. -/
theorem handleTurn_invalid_direction (now : Nat) (s : DeviceState) (ps : String)
    (h1 : getValue ps ':' 0 ≠ "L") (h2 : getValue ps ':' 0 ≠ "R") :
    handleTurnCommand now s ps = (s, ["ERROR:INVALID_DIRECTION:" ++ getValue ps ':' 0]) := by
  simp [handleTurnCommand, h1, h2]

/-- LED handler with an unknown state token: error response, state kept. -/
theorem handleLED_invalid_state (s : DeviceState) (ps : String)
    (h1 : getValue ps ':' 0 ≠ "ON") (h2 : getValue ps ':' 0 ≠ "OFF") :
    handleLEDCommand s ps = (s, ["ERROR:INVALID_LED_STATE:" ++ getValue ps ':' 0]) := by
  simp [handleLEDCommand, h1, h2]

/-- Sensor handler with an unknown sensor token: error response, state
kept. -/
theorem handleSensor_unknown (env : SensorEnv) (s : DeviceState) (ps : String)
    (h1 : upperString ps ≠ "DISTANCE") (h2 : upperString ps ≠ "LIGHT")
    (h3 : upperString ps ≠ "OBSTACLE") :
    handleSensorCommand env s ps = (s, ["ERROR:UNKNOWN_SENSOR:" ++ upperString ps]) := by
  simp [handleSensorCommand, h1, h2, h3]

/-- Every line `badLineResponse` rejects makes `executeCommand` return the
input state (with only `lastCommand` recorded) and exactly that one error
response. -/
theorem executeCommand_rejected (env : SensorEnv) (now : Nat)
    (s : DeviceState) (cmd err : String)
    (h : badLineResponse cmd = some err) :
    executeCommand env now s cmd = ({ s with lastCommand := cmd }, [err]) := by
  cases hc : splitFirstColon cmd with
  | none =>
    simp only [badLineResponse, hc] at h
    injection h with h
    subst h
    simp only [executeCommand, hc]
  | some p =>
    obtain ⟨ty, ps⟩ := p
    simp only [badLineResponse, hc] at h
    simp only [executeCommand, hc]
    split_ifs at h ⊢ <;>
      first
        | exact Option.noConfusion h
        | (injection h with h
           subst h
           first
             | exact handleMove_invalid_direction now _ _ ‹_› ‹_›
             | exact handleTurn_invalid_direction now _ _ ‹_› ‹_›
             | exact handleLED_invalid_state _ _ ‹_› ‹_›
             | exact handleSensor_unknown env _ _ ‹_› ‹_› ‹_›
             | rfl)

/-- C6: every rejected input line — malformed (no colon), unknown type,
or carrying an unknown direction, LED state or sensor token — makes the
BLE executor emit exactly the corresponding single `ERROR:*` response and
leaves the motor PWM channels, the armed timeout deadline, the current
speed and the LED state unchanged. -/
theorem rejected_line_preserves_state (env : SensorEnv) (now : Nat)
    (s : DeviceState) (cmd err : String)
    (h : badLineResponse cmd = some err) :
    (executeCommand env now s cmd).2 = [err] ∧
    (executeCommand env now s cmd).1.pwmL1 = s.pwmL1 ∧
    (executeCommand env now s cmd).1.pwmL2 = s.pwmL2 ∧
    (executeCommand env now s cmd).1.pwmR1 = s.pwmR1 ∧
    (executeCommand env now s cmd).1.pwmR2 = s.pwmR2 ∧
    (executeCommand env now s cmd).1.pwmLED = s.pwmLED ∧
    (executeCommand env now s cmd).1.commandTimeout = s.commandTimeout ∧
    (executeCommand env now s cmd).1.currentSpeed = s.currentSpeed ∧
    (executeCommand env now s cmd).1.ledState = s.ledState ∧
    (executeCommand env now s cmd).1.ledBrightness = s.ledBrightness := by
  rw [executeCommand_rejected env now s cmd err h]
  exact ⟨rfl, rfl, rfl, rfl, rfl, rfl, rfl, rfl, rfl, rfl⟩

/-- C6 witness: the colonless line `FOO` at the boot state. -/
theorem rejected_line_preserves_state_witness :
    badLineResponse "FOO" = some "ERROR:INVALID_FORMAT" ∧
    ((executeCommand env0 0 initialState "FOO").2 = ["ERROR:INVALID_FORMAT"] ∧
     (executeCommand env0 0 initialState "FOO").1.pwmL1 = initialState.pwmL1 ∧
     (executeCommand env0 0 initialState "FOO").1.pwmL2 = initialState.pwmL2 ∧
     (executeCommand env0 0 initialState "FOO").1.pwmR1 = initialState.pwmR1 ∧
     (executeCommand env0 0 initialState "FOO").1.pwmR2 = initialState.pwmR2 ∧
     (executeCommand env0 0 initialState "FOO").1.pwmLED = initialState.pwmLED ∧
     (executeCommand env0 0 initialState "FOO").1.commandTimeout = initialState.commandTimeout ∧
     (executeCommand env0 0 initialState "FOO").1.currentSpeed = initialState.currentSpeed ∧
     (executeCommand env0 0 initialState "FOO").1.ledState = initialState.ledState ∧
     (executeCommand env0 0 initialState "FOO").1.ledBrightness = initialState.ledBrightness) :=
  ⟨rfl, rejected_line_preserves_state env0 0 initialState "FOO" "ERROR:INVALID_FORMAT" rfl⟩

/-- C7 counterexample: a block of unrecognized kind compiles to a noop
wait command whose duration is 100 ms, not the claimed `Wait{0}`. -/
theorem unknown_block_compiles_to_wait_100 :
    compileBlock unknownBlock 0 =
      { type := .wait, action := "noop", duration := some 100 } ∧
    (compileBlock unknownBlock 0).duration ≠ some 0 := by
  refine ⟨rfl, ?_⟩
  decide

/-- C7 amended: `compileProgram` is total and order-preserving — exactly
one command per block, in the same order — and a block of unrecognized
kind compiles to the no-effect noop wait command of duration 100 ms (after
a console diagnostic) rather than failing the program. -/
theorem compileProgram_total_order_preserving (blocks : List Block)
    (j : Nat) (b : Block) (i : Nat)
    (h : blockKind b ∉ ["move", "turn", "stop", "led", "beep", "wait", "read", "check"]) :
    (compileProgram blocks).length = blocks.length ∧
    (compileProgram blocks).get? j = (blocks.get? j).map (fun blk => compileBlock blk j) ∧
    compileBlock b i = { type := .wait, action := "noop", duration := some 100 } := by
  refine ⟨compileProgramAux_length blocks 0, ?_, ?_⟩
  · have hg := compileProgramAux_get? blocks 0 j
    simpa [compileProgram] using hg
  · simp only [List.mem_cons, List.not_mem_nil, or_false, not_or] at h
    obtain ⟨h1, h2, h3, h4, h5, h6, h7, h8⟩ := h
    simp [compileBlock, h1, h2, h3, h4, h5, h6, h7, h8]

/-- C7 witness: a one-block program of the unrecognized block. -/
theorem compileProgram_total_order_preserving_witness :
    blockKind unknownBlock ∉ ["move", "turn", "stop", "led", "beep", "wait", "read", "check"] ∧
    ((compileProgram [unknownBlock]).length = [unknownBlock].length ∧
     (compileProgram [unknownBlock]).get? 0 =
       ([unknownBlock].get? 0).map (fun blk => compileBlock blk 0) ∧
     compileBlock unknownBlock 0 =
       { type := .wait, action := "noop", duration := some 100 }) :=
  ⟨by decide,
   compileProgram_total_order_preserving [unknownBlock] 0 unknownBlock 0 (by decide)⟩

/-- C8: compiling the empty block list yields the empty command list;
validating the empty command list reports exactly the empty-program error;
and a program of 21 move blocks still compiles (to 21 commands) while
failing validation with exactly the battery-drain warning — validation is
pure and independent of compilation. -/
theorem empty_program_and_battery_validation :
    compileProgram [] = [] ∧
    validateProgram [] = { valid := false, errors := ["Program is empty"] } ∧
    (compileProgram moveBlocks21).length = 21 ∧
    validateProgram (compileProgram moveBlocks21) =
      { valid := false
        errors := ["Too many movement commands - may drain battery quickly"] } := by
  exact ⟨rfl, rfl, rfl, rfl⟩

/-- C9: an explicitly zero numeric block parameter is falsy, so the
compiler substitutes the hard-coded default instead: speed 0 becomes 50,
duration 0 becomes 1000 ms, angle 0 becomes 90, brightness 0 becomes 100;
hence no compiled move command carries speed 0 or duration 0 from an
explicitly zero input. -/
theorem zero_parameters_become_defaults (b : Block) :
    (b.parameters.bind BlockParams.speed = some 0 →
      (compileMoveCommand b).parameters.bind CmdParams.speed = some 50) ∧
    (b.parameters.bind BlockParams.duration = some 0 →
      (compileMoveCommand b).parameters.bind CmdParams.duration = some 1000 ∧
      (compileMoveCommand b).duration = some 1000) ∧
    (b.parameters.bind BlockParams.angle = some 0 →
      (compileTurnCommand b).parameters.bind CmdParams.angle = some 90) ∧
    (b.parameters.bind BlockParams.brightness = some 0 →
      (compileLedCommand b).parameters.bind CmdParams.brightness = some 100) := by
  refine ⟨fun h => ?_, fun h => ?_, fun h => ?_, fun h => ?_⟩ <;>
    simp [compileMoveCommand, compileTurnCommand, compileLedCommand,
          jsOr, jsClamp, h] <;>
    decide

/-- C9 witness: the all-zero-parameters move block. -/
theorem zero_parameters_become_defaults_witness :
    zeroParamBlock.parameters.bind BlockParams.speed = some 0 ∧
    zeroParamBlock.parameters.bind BlockParams.duration = some 0 ∧
    zeroParamBlock.parameters.bind BlockParams.angle = some 0 ∧
    zeroParamBlock.parameters.bind BlockParams.brightness = some 0 ∧
    (compileMoveCommand zeroParamBlock).parameters.bind CmdParams.speed = some 50 ∧
    (compileMoveCommand zeroParamBlock).parameters.bind CmdParams.duration = some 1000 ∧
    (compileMoveCommand zeroParamBlock).duration = some 1000 ∧
    (compileTurnCommand zeroParamBlock).parameters.bind CmdParams.angle = some 90 ∧
    (compileLedCommand zeroParamBlock).parameters.bind CmdParams.brightness = some 100 :=
  ⟨rfl, rfl, rfl, rfl,
   (zero_parameters_become_defaults zeroParamBlock).1 rfl,
   ((zero_parameters_become_defaults zeroParamBlock).2.1 rfl).1,
   ((zero_parameters_become_defaults zeroParamBlock).2.1 rfl).2,
   (zero_parameters_become_defaults zeroParamBlock).2.2.1 rfl,
   (zero_parameters_become_defaults zeroParamBlock).2.2.2 rfl⟩

/-- C10: every beep block compiles to the fixed command — frequency
1000 Hz, duration 500 ms — whatever frequency or duration its own
parameters carry; the block parameters are never read. -/
theorem beep_block_fixed_parameters (b : Block) (i : Nat)
    (h : blockKind b = "beep") :
    compileBlock b i =
      { type := .beep, action := "sound"
        parameters := some { frequency := some 1000, duration := some 500 }
        duration := some 500 } := by
  simp [compileBlock, h]

/-- C10 witness: a beep block carrying frequency 2345 and duration 42
still compiles to the fixed 1000 Hz / 500 ms command. -/
theorem beep_block_fixed_parameters_witness :
    blockKind beepBlock = "beep" ∧
    compileBlock beepBlock 3 =
      { type := .beep, action := "sound"
        parameters := some { frequency := some 1000, duration := some 500 }
        duration := some 500 } :=
  ⟨rfl, beep_block_fixed_parameters beepBlock 3 rfl⟩

end RoboCode
